import Mathlib

/-!
Shallow embedding of `src/n8n-cli.py`, an interactive CLI front end for an
n8n Raspberry Pi setup.  Each CLI command is modelled as a pure function from
its external inputs (supplied flags, the outcome of interactive prompts, the
outcome of the backend subprocess) to the ordered trace of observable events
it produces (console output, prompts shown, progress steps, sleeps, backend
invocations) together with its exit behaviour.
-/

namespace N8nCli

/-- Observable events of one command invocation, in program order.
`print` is a `console.print` of a plain (rich-markup) string; `bannerPanel`
is the markdown banner panel of `show_banner`; `servicesTable` is the rich
table of `show_services_table` with its (service, description) rows;
`checkboxPrompt` is the `inquirer` checkbox prompt with its message, choices
and default; `confirmAsk` is `Confirm.ask` with its question and default;
`progressStep` is a progress-bar description update followed by an advance;
`sleepMs` is a `time.sleep` in milliseconds; `realWork` marks an invocation
of real provisioning work for a service — the source contains no such call
(line 94 is only the comment `Here you would call your actual setup.sh
script` and line 99 the comment `Simulate service configuration`), so no
translated function ever emits it; `backendCall` is a `subprocess.run` of
the given argument vector. -/
inductive Event where
  | bannerPanel
  | servicesTable (rows : List (String × String))
  | print (line : String)
  | checkboxPrompt (message : String) (choices : List String) (deflt : List String)
  | confirmAsk (question : String) (deflt : Bool)
  | progressStep (description : String)
  | sleepMs (ms : Nat)
  | realWork (service : String)
  | backendCall (args : List String)
deriving DecidableEq

/-- Exit behaviour of one command invocation.  `normal` is a plain Python
return from the command function, which typer maps to process exit code 0;
`code c` would be an explicit `sys.exit(c)` / `typer.Exit(c)`. -/
inductive Exit where
  | normal
  | code (c : Nat)
deriving DecidableEq

/-- Process exit code resulting from an `Exit` behaviour. -/
def exitCode : Exit → Nat
  | .normal => 0
  | .code c => c

/-- The `SERVICES` dict (source lines 28-34): service id ↦ description,
in insertion order. -/
def SERVICES : List (String × String) :=
  [("traefik", "Reverse proxy with automatic SSL certificates"),
   ("qdrant", "Vector database for AI/ML workflows"),
   ("nginx", "Web server for static files and additional routing"),
   ("postgres", "PostgreSQL database for n8n data persistence"),
   ("monitoring", "Portainer for container management")]

/-- The keys of the service catalog, in order. -/
def serviceKeys : List String := SERVICES.map Prod.fst

/-- Outcome of the `inquirer.prompt` call in `select_services`:
`answers xs` — the prompt returned an answers dict whose `services` entry is
`xs`; `aborted` — the prompt returned `None`; `failed msg` — the prompt (or
building it) raised an exception rendering as `msg`, e.g. because no
interactive terminal is attached. -/
inductive PromptOutcome where
  | answers (services : List String)
  | aborted
  | failed (message : String)
deriving DecidableEq

/-- `select_services` (source lines 59-77): returns the events it emits and
the selected service list.  The header print (line 61) happens first in all
cases; the checkbox prompt (lines 64-71) is attempted in all cases; on an
exception (lines 73-77) two fallback messages are printed and the default
`["traefik"]` is returned; when the prompt returns `None` the result is
`[]` (line 72). -/
def select_services (outcome : PromptOutcome) : List Event × List String :=
  let header :=
    Event.print "\n[bold yellow]Select the services you want to install:[/bold yellow]"
  let box :=
    Event.checkboxPrompt "Choose services (use spacebar to select, enter to confirm)"
      serviceKeys ["traefik"]
  match outcome with
  | .answers xs => ([header, box], xs)
  | .aborted => ([header, box], [])
  | .failed msg =>
      ([header, box,
        Event.print ("[yellow]Interactive selection not available: " ++ msg ++ "[/yellow]"),
        Event.print "[blue]Using default services: traefik[/blue]"],
       ["traefik"])

/-- The per-service body of the loop in `run_setup_with_progress`
(source lines 97-102): a description update plus a simulated half-second
sleep; no real work is invoked. -/
def configure_step (service : String) : List Event :=
  [Event.progressStep ("Configuring " ++ service ++ "..."),
   Event.sleepMs 500]

/-- `run_setup_with_progress` (source lines 79-107).  The `debug` parameter
is accepted but never read inside the function body: the trace is identical
in debug and normal mode.  The steps are the dependency check, one simulated
configuration step per selected service, and the configuration-file
generation step, followed by the success message. -/
def run_setup_with_progress (selected_services : List String) (debug : Bool) :
    List Event :=
  Event.progressStep "Checking dependencies..."
    :: ((selected_services.map configure_step).flatten
        ++ [Event.progressStep "Generating configuration files...",
            Event.print "\n[bold green]✅ Setup completed successfully![/bold green]"])

/-- The access-information rule table of `setup` (source lines 135-143) as a
pure function of the selection: ordered (label, URL) pairs. -/
def summarizeAccess (services : List String) : List (String × String) :=
  if "traefik" ∈ services then
    ("n8n", "https://your-domain.com")
      :: (if "qdrant" ∈ services then
            [("Qdrant", "https://qdrant.your-domain.com")]
          else [])
  else
    [("n8n", "http://localhost:5678")]

/-- The access-information prints of `setup` (source lines 135-143): a header
followed by one bullet line per entry of `summarizeAccess`. -/
def accessInfoEvents (services : List String) : List Event :=
  Event.print "\n[bold green]🌐 Access your services at:[/bold green]"
    :: (summarizeAccess services).map (fun e => Event.print ("• " ++ e.1 ++ ": " ++ e.2))

/-- External inputs of one `setup` invocation: the outcome of the interactive
selection prompt (consulted only when no services are supplied via flags) and
the answer of `Confirm.ask` (consulted only when the gate is reached outside
debug mode). -/
structure SetupEnv where
  promptOutcome : PromptOutcome
  confirmAnswer : Bool
deriving DecidableEq

/-- The `setup` command (source lines 109-145).  `servicesOpt` models the
repeated `--service` option (`none` when absent); `if not services:` in
Python treats both `None` and the empty list as falsy, so both lead to the
interactive selection.  The supplied list is used verbatim: no validation
against `SERVICES` occurs anywhere.  The gate `if debug or Confirm.ask(...)`
short-circuits: in debug mode the confirm prompt is never shown. -/
def setup (servicesOpt : Option (List String)) (debug : Bool) (env : SetupEnv) :
    List Event × Exit :=
  let supplied := servicesOpt.getD []
  let sel :=
    if supplied = [] then
      let r := select_services env.promptOutcome
      (Event.servicesTable SERVICES :: r.1, r.2)
    else
      (([] : List Event), supplied)
  let services := sel.2
  if services = [] then
    (Event.bannerPanel :: sel.1
       ++ [Event.print "[yellow]No services selected. Exiting.[/yellow]"],
     Exit.normal)
  else
    let ev1 := Event.bannerPanel :: sel.1
      ++ [Event.print ("\n[bold blue]Selected services:[/bold blue] "
            ++ String.intercalate ", " services)]
      ++ (if debug then
            [Event.print
              "[yellow]Debug mode: Configuration will be generated but services won\x27t start[/yellow]"]
          else [])
    if debug then
      (ev1 ++ run_setup_with_progress services debug ++ accessInfoEvents services,
       Exit.normal)
    else
      let ev2 := ev1 ++ [Event.confirmAsk "Continue with setup?" true]
      if env.confirmAnswer then
        (ev2 ++ run_setup_with_progress services debug ++ accessInfoEvents services,
         Exit.normal)
      else
        (ev2 ++ [Event.print "[yellow]Setup cancelled.[/yellow]"], Exit.normal)

/-- Outcome of a `subprocess.run(..., check=True)` call: `completed rc out`
— the backend binary ran and exited with code `rc` producing stdout `out`
(with `check=True`, `rc ≠ 0` raises `CalledProcessError`); `fileNotFound` —
the backend binary is missing (`FileNotFoundError`). -/
inductive BackendResult where
  | completed (returncode : Nat) (stdout : String)
  | fileNotFound
deriving DecidableEq

/-- Python `str.strip()` (source line 158), modelled on the character list:
leading and trailing whitespace characters are removed. -/
def pyStrip (s : String) : String :=
  ⟨(((s.data.dropWhile Char.isWhitespace).reverse).dropWhile Char.isWhitespace).reverse⟩

/-- The `status` command (source lines 147-167).  Every branch, including
both `except` handlers, ends in a plain return, so the exit behaviour is
`normal` throughout. -/
def statusCmd (r : BackendResult) : List Event × Exit :=
  let ev0 := [Event.print "[bold blue]Checking service status...[/bold blue]",
              Event.backendCall ["docker", "compose", "ps"]]
  match r with
  | .completed rc out =>
      if rc = 0 then
        if pyStrip out ≠ "" then
          (ev0 ++ [Event.print "\n[bold green]Running services:[/bold green]",
                   Event.print out],
           Exit.normal)
        else
          (ev0 ++ [Event.print "[yellow]No services are currently running.[/yellow]"],
           Exit.normal)
      else
        (ev0 ++ [Event.print "[red]Error: Could not check service status. Is Docker running?[/red]"],
         Exit.normal)
  | .fileNotFound =>
      (ev0 ++ [Event.print "[red]Error: Docker not found. Please install Docker first.[/red]"],
       Exit.normal)

/-- The argument vector built by the `logs` command (source lines 177-181). -/
def logsCmdArgs (service : Option String) (follow : Bool) : List String :=
  ["docker", "compose", "logs"]
    ++ (if follow then ["-f"] else [])
    ++ (match service with | some s => [s] | none => [])

/-- Python `service or "services"` (source line 186): the default is used
when `service` is `None` or the empty (falsy) string. -/
def serviceOrDefault (service : Option String) : String :=
  match service with
  | some s => if s = "" then "services" else s
  | none => "services"

/-- The `logs` command (source lines 169-188).  As in `status`, both
`except` handlers print and return normally. -/
def logsCmd (service : Option String) (follow : Bool) (r : BackendResult) :
    List Event × Exit :=
  let call := Event.backendCall (logsCmdArgs service follow)
  match r with
  | .completed rc _ =>
      if rc = 0 then ([call], Exit.normal)
      else
        ([call,
          Event.print ("[red]Error: Could not show logs for "
            ++ serviceOrDefault service ++ "[/red]")],
         Exit.normal)
  | .fileNotFound =>
      ([call, Event.print "[red]Error: Docker not found.[/red]"], Exit.normal)

/-! ### Helper lemmas -/

/-- The `debug` parameter of `run_setup_with_progress` is never read:
the trace is the same for any two values of it. -/
lemma run_setup_debug_irrelevant (sel : List String) (d₁ d₂ : Bool) :
    run_setup_with_progress sel d₁ = run_setup_with_progress sel d₂ := rfl

/-- No event of `run_setup_with_progress` is a `realWork` invocation. -/
lemma realWork_not_in_run (s : String) (sel : List String) (d : Bool) :
    Event.realWork s ∉ run_setup_with_progress sel d := by
  intro h
  simp only [run_setup_with_progress, List.mem_cons, List.mem_append,
    List.mem_flatten, List.mem_map] at h
  rcases h with h | ⟨⟨l, ⟨a, _, rfl⟩, hl⟩ | h⟩ <;>
    simp [configure_step] at *

/-- No event of `run_setup_with_progress` is a `confirmAsk` prompt. -/
lemma confirmAsk_not_in_run (q : String) (b : Bool) (sel : List String) (d : Bool) :
    Event.confirmAsk q b ∉ run_setup_with_progress sel d := by
  intro h
  simp only [run_setup_with_progress, List.mem_cons, List.mem_append,
    List.mem_flatten, List.mem_map] at h
  rcases h with h | ⟨⟨l, ⟨a, _, rfl⟩, hl⟩ | h⟩ <;>
    simp [configure_step] at *

/-- Every event of `accessInfoEvents` is a `print`. -/
lemma accessInfo_all_print (sel : List String) (e : Event) :
    e ∈ accessInfoEvents sel → ∃ m, e = Event.print m := by
  intro h
  simp only [accessInfoEvents, List.mem_cons, List.mem_map] at h
  rcases h with h | ⟨a, _, rfl⟩
  · exact ⟨_, h⟩
  · exact ⟨_, rfl⟩

/-- The configuration step for each selected service occurs in the trace of
`run_setup_with_progress`. -/
lemma configuring_mem_run (sel : List String) (d : Bool) (s : String)
    (hs : s ∈ sel) :
    Event.progressStep ("Configuring " ++ s ++ "...") ∈ run_setup_with_progress sel d := by
  simp only [run_setup_with_progress, List.mem_cons, List.mem_append,
    List.mem_flatten, List.mem_map]
  exact Or.inr (Or.inl ⟨configure_step s, ⟨s, hs, rfl⟩, by simp [configure_step]⟩)

/-! ### Claims -/

/-- C4: the access-info summary follows the fixed-priority rule table: with
`traefik` selected the first entry is the domain-based HTTPS URL, followed by
the qdrant subdomain entry exactly when `qdrant` is also selected; without
`traefik` the output is exactly the local HTTP entry on port 5678. -/
theorem access_rule_table (S : List String) :
    ("traefik" ∈ S →
        summarizeAccess S =
          ("n8n", "https://your-domain.com")
            :: (if "qdrant" ∈ S then [("Qdrant", "https://qdrant.your-domain.com")] else []))
    ∧ ("traefik" ∉ S → summarizeAccess S = [("n8n", "http://localhost:5678")]) := by
  constructor
  · intro h
    simp [summarizeAccess, h]
  · intro h
    simp [summarizeAccess, h]

/-- C4 witness: the two concrete selections named by the spec. -/
theorem access_rule_table_witness :
    summarizeAccess ["traefik", "qdrant"] =
        [("n8n", "https://your-domain.com"),
         ("Qdrant", "https://qdrant.your-domain.com")]
    ∧ summarizeAccess ["postgres"] = [("n8n", "http://localhost:5678")] := by
  constructor
  · have h := (access_rule_table ["traefik", "qdrant"]).1 (by decide)
    simpa using h
  · have h := (access_rule_table ["postgres"]).2 (by decide)
    simpa using h

/-- C9: for selections that are subsets of the catalog keys, the access-info
summary is a deterministic pure function of the selection set: any two
selections with the same members (in particular, two equal ones) yield
identical ordered output. -/
theorem access_deterministic (S₁ S₂ : List String)
    (hsub : ∀ s ∈ S₁, s ∈ serviceKeys)
    (hext : ∀ s, s ∈ S₁ ↔ s ∈ S₂) :
    summarizeAccess S₁ = summarizeAccess S₂ := by
  simp only [summarizeAccess]
  exact if_congr (hext "traefik")
    (congrArg (List.cons _) (if_congr (hext "qdrant") rfl rfl)) rfl

/-- C9 witness: two orderings of the same concrete selection set. -/
theorem access_deterministic_witness :
    summarizeAccess ["qdrant", "traefik"] = summarizeAccess ["traefik", "qdrant"] :=
  access_deterministic ["qdrant", "traefik"] ["traefik", "qdrant"]
    (by decide) (fun s => by simp [or_comm])

/-- C5: `status` treats empty backend output as a valid nothing-running
result with its own message, and reports the missing backend binary and a
failing backend invocation with two distinct error messages; all three
messages are pairwise distinct. -/
theorem status_distinguishes_outcomes (out : String) (rc : Nat) :
    (pyStrip out = "" →
        (statusCmd (.completed 0 out)).1 =
          [Event.print "[bold blue]Checking service status...[/bold blue]",
           Event.backendCall ["docker", "compose", "ps"],
           Event.print "[yellow]No services are currently running.[/yellow]"])
    ∧ (rc ≠ 0 →
        (statusCmd (.completed rc out)).1 =
          [Event.print "[bold blue]Checking service status...[/bold blue]",
           Event.backendCall ["docker", "compose", "ps"],
           Event.print "[red]Error: Could not check service status. Is Docker running?[/red]"])
    ∧ (statusCmd BackendResult.fileNotFound).1 =
        [Event.print "[bold blue]Checking service status...[/bold blue]",
         Event.backendCall ["docker", "compose", "ps"],
         Event.print "[red]Error: Docker not found. Please install Docker first.[/red]"]
    ∧ ("[red]Error: Docker not found. Please install Docker first.[/red]" ≠
        "[red]Error: Could not check service status. Is Docker running?[/red]")
    ∧ ("[yellow]No services are currently running.[/yellow]" ≠
        "[red]Error: Docker not found. Please install Docker first.[/red]")
    ∧ ("[yellow]No services are currently running.[/yellow]" ≠
        "[red]Error: Could not check service status. Is Docker running?[/red]") := by
  refine ⟨fun h => ?_, fun h => ?_, by simp [statusCmd], by decide, by decide, by decide⟩
  · simp [statusCmd, h]
  · simp [statusCmd, h]

/-- C5 witness: empty output and exit code 1 at concrete inputs. -/
theorem status_distinguishes_outcomes_witness :
    (statusCmd (.completed 0 "")).1 =
        [Event.print "[bold blue]Checking service status...[/bold blue]",
         Event.backendCall ["docker", "compose", "ps"],
         Event.print "[yellow]No services are currently running.[/yellow]"]
    ∧ (statusCmd (.completed 1 "")).1 =
        [Event.print "[bold blue]Checking service status...[/bold blue]",
         Event.backendCall ["docker", "compose", "ps"],
         Event.print "[red]Error: Could not check service status. Is Docker running?[/red]"] :=
  ⟨(status_distinguishes_outcomes "" 1).1 (by decide),
   (status_distinguishes_outcomes "" 1).2.1 (by decide)⟩

/-- C6: when the interactive prompt raises (non-interactive environment),
`select_services` returns exactly the default preselection `["traefik"]`
— which is also the checkbox default it attempted to show — and emits the
two visible fallback messages. -/
theorem select_services_fallback (msg : String) :
    (select_services (.failed msg)).2 = ["traefik"]
    ∧ Event.print ("[yellow]Interactive selection not available: " ++ msg ++ "[/yellow]")
        ∈ (select_services (.failed msg)).1
    ∧ Event.print "[blue]Using default services: traefik[/blue]"
        ∈ (select_services (.failed msg)).1
    ∧ Event.checkboxPrompt "Choose services (use spacebar to select, enter to confirm)"
        serviceKeys ["traefik"] ∈ (select_services (.failed msg)).1 := by
  refine ⟨rfl, ?_, ?_, ?_⟩ <;> simp [select_services]

/-- C7: with a nonempty selection, in debug mode the confirm prompt is never
shown and the step runner is entered anyway; outside debug mode the prompt
(with default yes) is shown, the step runner is entered exactly when the
answer is affirmative, and on a negative answer the cancellation message is
printed and no step runs. -/
theorem confirmation_gate (services : List String) (env : SetupEnv)
    (hne : services ≠ []) :
    ((∀ q b, Event.confirmAsk q b ∉ (setup (some services) true env).1)
      ∧ Event.progressStep "Checking dependencies..." ∈ (setup (some services) true env).1)
    ∧ (env.confirmAnswer = true →
        Event.confirmAsk "Continue with setup?" true ∈ (setup (some services) false env).1
        ∧ Event.progressStep "Checking dependencies..." ∈ (setup (some services) false env).1)
    ∧ (env.confirmAnswer = false →
        Event.confirmAsk "Continue with setup?" true ∈ (setup (some services) false env).1
        ∧ Event.print "[yellow]Setup cancelled.[/yellow]" ∈ (setup (some services) false env).1
        ∧ ∀ d, Event.progressStep d ∉ (setup (some services) false env).1) := by
  refine ⟨⟨?_, ?_⟩, fun hc => ⟨?_, ?_⟩, fun hc => ⟨?_, ?_, ?_⟩⟩
  · intro q b h
    simp only [setup, Option.getD_some, if_neg hne, if_pos, List.cons_append,
      List.nil_append, List.mem_cons, List.mem_append] at h
    rcases h with h | h | h | h | h
    · exact Event.noConfusion h
    · exact Event.noConfusion h
    · exact Event.noConfusion h
    · exact confirmAsk_not_in_run q b services true h
    · obtain ⟨m, hm⟩ := accessInfo_all_print services _ h
      exact Event.noConfusion hm
  · simp [setup, hne, run_setup_with_progress]
  · simp [setup, hne, hc]
  · simp [setup, hne, hc, run_setup_with_progress]
  · simp [setup, hne, hc]
  · simp [setup, hne, hc]
  · intro d h
    simp [setup, hne, hc] at h

/-- C7 witness: the concrete selection `["traefik"]` under both confirm
answers. -/
theorem confirmation_gate_witness :
    (∀ q b, Event.confirmAsk q b
        ∉ (setup (some ["traefik"]) true ⟨PromptOutcome.aborted, true⟩).1)
    ∧ Event.progressStep "Checking dependencies..."
        ∈ (setup (some ["traefik"]) false ⟨PromptOutcome.aborted, true⟩).1
    ∧ Event.print "[yellow]Setup cancelled.[/yellow]"
        ∈ (setup (some ["traefik"]) false ⟨PromptOutcome.aborted, false⟩).1 :=
  ⟨(confirmation_gate ["traefik"] ⟨PromptOutcome.aborted, true⟩ (by decide)).1.1,
   ((confirmation_gate ["traefik"] ⟨PromptOutcome.aborted, true⟩ (by decide)).2.1 rfl).2,
   ((confirmation_gate ["traefik"] ⟨PromptOutcome.aborted, false⟩ (by decide)).2.2 rfl).2.1⟩

/-- C8: when the selection ends up empty, `setup` prints the
no-services-selected message and terminates normally without showing the
confirm prompt, without running any step and without printing access
information. -/
theorem empty_selection_short_circuits (debug : Bool) (env : SetupEnv)
    (h : (select_services env.promptOutcome).2 = []) :
    Event.print "[yellow]No services selected. Exiting.[/yellow]"
        ∈ (setup none debug env).1
    ∧ (∀ q b, Event.confirmAsk q b ∉ (setup none debug env).1)
    ∧ (∀ d, Event.progressStep d ∉ (setup none debug env).1)
    ∧ Event.print "\n[bold green]🌐 Access your services at:[/bold green]"
        ∉ (setup none debug env).1
    ∧ (setup none debug env).2 = Exit.normal := by
  rcases env with ⟨outcome, ans⟩
  rcases outcome with xs | _ | msg
  · simp only [select_services] at h
    subst h
    refine ⟨?_, ?_, ?_, ?_, ?_⟩ <;> simp [setup, select_services]
  · refine ⟨?_, ?_, ?_, ?_, ?_⟩ <;> simp [setup, select_services]
  · simp [select_services] at h

/-- C8 witness: an aborted prompt yields the empty selection. -/
theorem empty_selection_short_circuits_witness :
    Event.print "[yellow]No services selected. Exiting.[/yellow]"
        ∈ (setup none false ⟨PromptOutcome.aborted, true⟩).1
    ∧ (∀ d, Event.progressStep d ∉ (setup none false ⟨PromptOutcome.aborted, true⟩).1) :=
  ⟨(empty_selection_short_circuits false ⟨PromptOutcome.aborted, true⟩ rfl).1,
   (empty_selection_short_circuits false ⟨PromptOutcome.aborted, true⟩ rfl).2.2.1⟩

/-- C6 witness: a concrete prompt failure message. -/
theorem select_services_fallback_witness :
    (select_services (.failed "No terminal attached")).2 = ["traefik"]
    ∧ Event.print "[blue]Using default services: traefik[/blue]"
        ∈ (select_services (.failed "No terminal attached")).1 :=
  ⟨(select_services_fallback "No terminal attached").1,
   (select_services_fallback "No terminal attached").2.2.1⟩

/-- C10: when the checkbox prompt completes without an answers object,
`select_services` returns the empty list — not the default, and without the
fallback warning — and `setup` then takes the empty-selection exit path: its
whole trace is the banner, the services table, the selection header, the
checkbox prompt and the no-services message, with a normal exit, so no
confirmation, no step and no access summary occurs. -/
theorem aborted_prompt_yields_empty (debug : Bool) (ans : Bool) :
    (select_services PromptOutcome.aborted).2 = []
    ∧ Event.print "[blue]Using default services: traefik[/blue]"
        ∉ (select_services PromptOutcome.aborted).1
    ∧ setup none debug ⟨PromptOutcome.aborted, ans⟩ =
        ([Event.bannerPanel, Event.servicesTable SERVICES,
          Event.print "\n[bold yellow]Select the services you want to install:[/bold yellow]",
          Event.checkboxPrompt "Choose services (use spacebar to select, enter to confirm)"
            serviceKeys ["traefik"],
          Event.print "[yellow]No services selected. Exiting.[/yellow]"],
         Exit.normal) := by
  refine ⟨rfl, ?_, ?_⟩
  · simp [select_services]
  · simp [setup, select_services]

/-- C10 witness: the non-debug invocation with a confirm answer pending. -/
theorem aborted_prompt_yields_empty_witness :
    (select_services PromptOutcome.aborted).2 = []
    ∧ setup none false ⟨PromptOutcome.aborted, true⟩ =
        ([Event.bannerPanel, Event.servicesTable SERVICES,
          Event.print "\n[bold yellow]Select the services you want to install:[/bold yellow]",
          Event.checkboxPrompt "Choose services (use spacebar to select, enter to confirm)"
            serviceKeys ["traefik"],
          Event.print "[yellow]No services selected. Exiting.[/yellow]"],
         Exit.normal) :=
  ⟨(aborted_prompt_yields_empty false true).1,
   (aborted_prompt_yields_empty false true).2.2⟩

/-- C1 counterexample: `setup` with the out-of-band selection `["foo"]`,
whose id is not a catalog key, does not fail with a configuration error
before the confirmation gate: the confirm prompt is shown, and with an
affirmative answer the step runner executes the configuration step for the
unknown id and the command exits with code 0. -/
theorem unknown_service_counterexample :
    ("foo" ∉ serviceKeys)
    ∧ Event.confirmAsk "Continue with setup?" true
        ∈ (setup (some ["foo"]) false ⟨PromptOutcome.aborted, true⟩).1
    ∧ Event.progressStep "Configuring foo..."
        ∈ (setup (some ["foo"]) false ⟨PromptOutcome.aborted, true⟩).1
    ∧ exitCode (setup (some ["foo"]) false ⟨PromptOutcome.aborted, true⟩).2 = 0 := by
  exact ⟨by decide, by decide, by decide, by decide⟩

/-- C1 amended: a nonempty out-of-band selection is used verbatim and never
validated against the catalog: whatever its ids, no configuration error is
raised — the workflow reaches the confirmation gate, on an affirmative
answer it runs the configuration step of every supplied id, and the exit is
normal. -/
theorem unknown_service_accepted (supplied : List String) (env : SetupEnv)
    (hne : supplied ≠ []) :
    Event.confirmAsk "Continue with setup?" true ∈ (setup (some supplied) false env).1
    ∧ (env.confirmAnswer = true → ∀ s ∈ supplied,
        Event.progressStep ("Configuring " ++ s ++ "...")
          ∈ (setup (some supplied) false env).1)
    ∧ (setup (some supplied) false env).2 = Exit.normal := by
  refine ⟨?_, fun hc s hs => ?_, ?_⟩
  · by_cases hca : env.confirmAnswer <;> simp [setup, hne, hca]
  · have hin := configuring_mem_run supplied false s hs
    simp [setup, hne, hc, hin]
  · by_cases hca : env.confirmAnswer <;> simp [setup, hne, hca]

/-- C1 amended witness: the unknown id `foo` at the confirm-yes environment. -/
theorem unknown_service_accepted_witness :
    Event.confirmAsk "Continue with setup?" true
        ∈ (setup (some ["foo"]) false ⟨PromptOutcome.aborted, true⟩).1
    ∧ Event.progressStep ("Configuring " ++ "foo" ++ "...")
        ∈ (setup (some ["foo"]) false ⟨PromptOutcome.aborted, true⟩).1 :=
  ⟨(unknown_service_accepted ["foo"] ⟨PromptOutcome.aborted, true⟩ (by decide)).1,
   (unknown_service_accepted ["foo"] ⟨PromptOutcome.aborted, true⟩ (by decide)).2.1
     rfl "foo" (by decide)⟩

/-- C2 counterexample: the step runner behaves identically in debug and
normal mode — its `debug` argument is never read — and in normal mode with
one selected service it invokes zero real work callbacks where the claim
requires one per step; the simulated sleep happens in debug mode too. -/
theorem step_runner_counterexample :
    run_setup_with_progress ["traefik"] true = run_setup_with_progress ["traefik"] false
    ∧ (run_setup_with_progress ["traefik"] false).count (Event.realWork "traefik") = 0
    ∧ Event.sleepMs 500 ∈ run_setup_with_progress ["traefik"] true := by
  exact ⟨rfl, by decide, by decide⟩

/-- C2 amended: in debug and in normal mode the step runner produces the
same trace: it enumerates the step descriptions in order, including the
configuration step of every selected service, and invokes zero real work
callbacks in either mode (the work is only a simulated delay), so no step
can fail and no service is started. -/
theorem step_runner_simulates (sel : List String) (d : Bool) :
    run_setup_with_progress sel d = run_setup_with_progress sel false
    ∧ (∀ s, Event.realWork s ∉ run_setup_with_progress sel d)
    ∧ (∀ s ∈ sel, Event.progressStep ("Configuring " ++ s ++ "...")
        ∈ run_setup_with_progress sel d) :=
  ⟨rfl, fun s => realWork_not_in_run s sel d,
   fun s hs => configuring_mem_run sel d s hs⟩

/-- C2 amended witness: one selected service in debug mode. -/
theorem step_runner_simulates_witness :
    Event.realWork "traefik" ∉ run_setup_with_progress ["traefik"] true
    ∧ Event.progressStep ("Configuring " ++ "traefik" ++ "...")
        ∈ run_setup_with_progress ["traefik"] true :=
  ⟨(step_runner_simulates ["traefik"] true).2.1 "traefik",
   (step_runner_simulates ["traefik"] true).2.2 "traefik" (by decide)⟩

/-- C3 counterexample: with the backend binary missing, `status` prints the
missing-backend error message yet exits with code 0, where the claim
requires a non-zero exit code. -/
theorem exit_code_counterexample :
    Event.print "[red]Error: Docker not found. Please install Docker first.[/red]"
        ∈ (statusCmd BackendResult.fileNotFound).1
    ∧ exitCode (statusCmd BackendResult.fileNotFound).2 = 0 :=
  ⟨by simp [statusCmd], rfl⟩

/-- C3 amended: every modeled command invocation returns normally with exit
code 0 — on success and cancellation, but also on each propagated failure:
missing backend binary, backend invocation error, and an out-of-band unknown
service id (which is not rejected at all, see C1). -/
theorem all_commands_exit_zero :
    (∀ so d env, exitCode (setup so d env).2 = 0)
    ∧ (∀ r, exitCode (statusCmd r).2 = 0)
    ∧ (∀ s f r, exitCode (logsCmd s f r).2 = 0) := by
  refine ⟨fun so d env => ?_, fun r => ?_, fun s f r => ?_⟩
  · dsimp only [setup]
    repeat' split
    all_goals rfl
  · rcases r with ⟨rc, out⟩ | _
    · dsimp only [statusCmd]
      repeat' split
      all_goals rfl
    · rfl
  · rcases r with ⟨rc, out⟩ | _
    · dsimp only [logsCmd]
      repeat' split
      all_goals rfl
    · rfl

/-- C3 amended witness: a missing backend binary on `status`, a failing
backend invocation on `logs`, and a setup run all exit with code 0. -/
theorem all_commands_exit_zero_witness :
    exitCode (statusCmd BackendResult.fileNotFound).2 = 0
    ∧ exitCode (logsCmd none false (.completed 1 "")).2 = 0
    ∧ exitCode (setup (some ["foo"]) false ⟨PromptOutcome.aborted, true⟩).2 = 0 :=
  ⟨all_commands_exit_zero.2.1 BackendResult.fileNotFound,
   all_commands_exit_zero.2.2 none false (.completed 1 ""),
   all_commands_exit_zero.1 (some ["foo"]) false ⟨PromptOutcome.aborted, true⟩⟩

end N8nCli
